import Mathlib

/-!
Verification of the error-handling / response-normalization layer and the
toggling state operations of the Naksh backend.

The JavaScript sources are embedded shallowly:

* `JSVal` models the JavaScript values that flow into the error transformer
  (`src/utils/errors.js`): `null`, `undefined`, booleans, numbers, strings,
  arrays, plain objects (as association lists of fields), and instances of
  the `APIError` class hierarchy.
* Property access on `null`/`undefined` throws a `TypeError`; this is
  modelled by `Except JsErr`.  All other property reads are total
  (`JSVal.getD`), matching JavaScript semantics where reading a missing
  field yields `undefined`.
* The route handlers for reactions, follows and messages are embedded as
  pure state-transition functions over lists of rows, mirroring the
  Prisma queries they issue.
-/

/-- Model of the JavaScript values handled by the error layer.
`apiErrV name message statusCode code details isOperational extra` models an
instance of the `APIError` class (or a subclass): `name` is
`this.constructor.name`, `message` is the string stored by the `Error`
constructor, `statusCode`/`code`/`details` are the fields set in the
`APIError` constructor, `isOperational` is the flag set there (always
`true` in the source), and `extra` holds subclass fields such as
`originalError` (DatabaseError) or `service` (ExternalServiceError). -/
inductive JSVal : Type where
  | nullV : JSVal
  | undefV : JSVal
  | boolV : Bool → JSVal
  | numV : Int → JSVal
  | strV : String → JSVal
  | arrV : List JSVal → JSVal
  | recV : List (String × JSVal) → JSVal
  | apiErrV : String → String → JSVal → JSVal → JSVal → Bool → List (String × JSVal) → JSVal

/-- JavaScript truthiness. -/
def JSVal.truthy : JSVal → Bool
  | .nullV => false
  | .undefV => false
  | .boolV b => b
  | .numV n => n != 0
  | .strV s => !s.isEmpty
  | .arrV _ => true
  | .recV _ => true
  | .apiErrV _ _ _ _ _ _ _ => true

/-- The value is `null` or `undefined` (property access on it throws). -/
def JSVal.isNullish : JSVal → Bool
  | .nullV => true
  | .undefV => true
  | _ => false

/-- The value is a string (strings are the only values with `startsWith`). -/
def JSVal.isStr : JSVal → Bool
  | .strV _ => true
  | _ => false

/-- Strict equality (`===`) against a string literal. -/
def isStrEq (v : JSVal) (s : String) : Bool :=
  match v with
  | .strV t => t = s
  | _ => false

/-- Strict equality (`===`) against a number literal. -/
def isNumEq (v : JSVal) (n : Int) : Bool :=
  match v with
  | .numV m => m = n
  | _ => false

/-- Total property read: defined for every receiver.  On `recV` it looks the
field up; on `apiErrV` it exposes the class fields; on every other value it
yields `undefined` (numbers, strings, etc. have none of the fields the error
layer reads).  Callers must separately account for the `TypeError` thrown on
`null`/`undefined` receivers (see `getProp`). -/
def JSVal.getD : JSVal → String → JSVal
  | .recV fs, k =>
    match fs.lookup k with
    | some v => v
    | none => .undefV
  | .apiErrV n m st c d op ex, k =>
    if k = "name" then .strV n
    else if k = "message" then .strV m
    else if k = "statusCode" then st
    else if k = "code" then c
    else if k = "details" then d
    else if k = "isOperational" then .boolV op
    else
      match ex.lookup k with
      | some v => v
      | none => .undefV
  | _, _ => .undefV

/-- A thrown JavaScript exception that is not an `APIError` value; the only
one produced inside the embedded code is a `TypeError` from a property
access or method call on an unsuitable receiver. -/
inductive JsErr : Type where
  | typeError : JsErr

/-- Property access with JavaScript throwing semantics: `v.k` throws a
`TypeError` when `v` is `null` or `undefined`. -/
def getProp (v : JSVal) (k : String) : Except JsErr JSVal :=
  match v with
  | .nullV => .error .typeError
  | .undefV => .error .typeError
  | _ => .ok (v.getD k)

mutual

/-- JavaScript `String(v)` conversion, as used by template literals. -/
def JSVal.toStr : JSVal → String
  | .nullV => "null"
  | .undefV => "undefined"
  | .boolV b => if b then "true" else "false"
  | .numV n => toString n
  | .strV s => s
  | .arrV l => String.intercalate (",") (toStrElems l)
  | .recV _ => "[object Object]"
  | .apiErrV n m _ _ _ _ _ => n ++ ": " ++ m

/-- Element conversion used by `Array.prototype.join`/`toString`:
`null` and `undefined` elements become the empty string. -/
def toStrElems : List JSVal → List String
  | [] => []
  | e :: rest => (if e.isNullish then "" else e.toStr) :: toStrElems rest

end

/-- The string stored in `this.message` by `new Error(message)`:
the empty string when the argument is `undefined`, otherwise the
`String(...)` conversion of the argument. -/
def errMsg : JSVal → String
  | .undefV => ""
  | v => v.toStr

/-- A default parameter value: used when the supplied argument is
`undefined`, as in `constructor(message = 'Access denied')`. -/
def argOrDefault (v : JSVal) (d : JSVal) : JSVal :=
  match v with
  | .undefV => d
  | _ => v

/-- A call `v.join(sep)`: defined on arrays, a `TypeError` on anything else
(including `null`, `undefined`, numbers and strings, none of which have a
`join` method). -/
def joinCall (v : JSVal) (sep : String) : Except JsErr String :=
  match v with
  | .arrV l => .ok (String.intercalate sep (toStrElems l))
  | _ => .error .typeError

/-- JavaScript `s.startsWith(pre)`, modelled as a character-list prefix
test (extensionally the same as Lean's own `String.startsWith`, but
reducible by the kernel). -/
def strStartsWith (s pre : String) : Bool :=
  pre.data.isPrefixOf s.data

/-- The `error instanceof APIError` test (true for every subclass). -/
def isAPIError : JSVal → Bool
  | .apiErrV _ _ _ _ _ _ _ => true
  | _ => false

/- Constructors of the `APIError` hierarchy (src/utils/errors.js).  Every
constructor ends in the `APIError` base constructor, which sets
`isOperational = true` unconditionally. -/

/-- `new APIError(message, statusCode, code, details)`. -/
def mkAPIError (message : JSVal) (statusCode : JSVal) (code : JSVal) (details : JSVal) : JSVal :=
  .apiErrV ("APIError") (errMsg message) statusCode code details true []

/-- `new ValidationError(message, details)` — 400 VALIDATION_ERROR. -/
def mkValidationError (message : JSVal) (details : JSVal) : JSVal :=
  .apiErrV ("ValidationError") (errMsg message) (.numV 400) (.strV ("VALIDATION_ERROR")) details true []

/-- `new AuthenticationError(message = 'Authentication required')` — 401. -/
def mkAuthenticationError (message : JSVal) : JSVal :=
  .apiErrV ("AuthenticationError") (errMsg (argOrDefault message (.strV ("Authentication required"))))
    (.numV 401) (.strV ("AUTHENTICATION_ERROR")) .nullV true []

/-- `new AuthorizationError(message = 'Access denied')` — 403. -/
def mkAuthorizationError (message : JSVal) : JSVal :=
  .apiErrV ("AuthorizationError") (errMsg (argOrDefault message (.strV ("Access denied"))))
    (.numV 403) (.strV ("AUTHORIZATION_ERROR")) .nullV true []

/-- `new NotFoundError(resource = 'Resource')` — 404, message
interpolated from the resource name. -/
def mkNotFoundError (resource : JSVal) : JSVal :=
  .apiErrV ("NotFoundError") ((argOrDefault resource (.strV ("Resource"))).toStr ++ " not found")
    (.numV 404) (.strV ("NOT_FOUND_ERROR")) .nullV true []

/-- `new ConflictError(message, details)` — 409 CONFLICT_ERROR. -/
def mkConflictError (message : JSVal) (details : JSVal) : JSVal :=
  .apiErrV ("ConflictError") (errMsg message) (.numV 409) (.strV ("CONFLICT_ERROR")) details true []

/-- `new DatabaseError(message = 'Database operation failed', originalError = null)` —
500 DATABASE_ERROR, keeping a reference to the original error. -/
def mkDatabaseError (message : JSVal) (originalError : JSVal) : JSVal :=
  .apiErrV ("DatabaseError") (errMsg (argOrDefault message (.strV ("Database operation failed"))))
    (.numV 500) (.strV ("DATABASE_ERROR")) .nullV true [(("originalError"), argOrDefault originalError .nullV)]

/-- `new ExternalServiceError(service, message = 'External service unavailable')` —
502 EXTERNAL_SERVICE_ERROR, message interpolated from both arguments. -/
def mkExternalServiceError (service : String) (message : JSVal) : JSVal :=
  .apiErrV ("ExternalServiceError")
    (service ++ ": " ++ (argOrDefault message (.strV ("External service unavailable"))).toStr)
    (.numV 502) (.strV ("EXTERNAL_SERVICE_ERROR")) .nullV true [(("service"), .strV service)]

/-- `transformPrismaError` (src/utils/errors.js): switch on `error.code`
with `meta = error.meta || {}`.  Only called with a non-nullish receiver. -/
def transformPrismaError (error : JSVal) : JSVal :=
  let code := error.getD ("code")
  let meta := if (error.getD ("meta")).truthy then error.getD ("meta") else .recV []
  if isStrEq code ("P2002") then
    let target := if (meta.getD ("target")).truthy then meta.getD ("target") else .arrV [.strV ("field")]
    let field : JSVal :=
      match target with
      | .arrV l => .strV (String.intercalate (", ") (toStrElems l))
      | _ => target
    mkConflictError (.strV (field.toStr ++ " already exists"))
      (.recV [(("field"), field), (("constraint"), .strV ("unique"))])
  else if isStrEq code ("P2025") then
    mkNotFoundError (.strV ("Record"))
  else if isStrEq code ("P2003") then
    mkValidationError (.strV ("Invalid reference to related record"))
      (.recV [(("constraint"), .strV ("foreign_key")), (("field"), meta.getD ("field_name"))])
  else if isStrEq code ("P2014") then
    mkValidationError (.strV ("Invalid ID provided")) (.recV [(("field"), meta.getD ("field_name"))])
  else if isStrEq code ("P2016") then
    mkValidationError (.strV ("Query validation failed")) (.recV [(("details"), error.getD ("message"))])
  else if isStrEq code ("P2020") then
    mkValidationError (.strV ("Value out of range")) (.recV [(("field"), meta.getD ("field_name"))])
  else if isStrEq code ("P2021") then
    mkDatabaseError (.strV ("Table does not exist")) .undefV
  else if isStrEq code ("P2024") then
    mkDatabaseError (.strV ("Connection pool timeout")) .undefV
  else
    mkDatabaseError (.strV ("Database operation failed")) error

/-- One step of the Joi mapping in `transformValidationError`:
`{ field: detail.path.join('.'), message: detail.message, value: detail.context?.value }`.
Throws when `detail` is nullish or `detail.path` is not an array. -/
def mapJoiDetail (detail : JSVal) : Except JsErr JSVal := do
  let path ← getProp detail ("path")
  let field ← joinCall path (".")
  let ctx := detail.getD ("context")
  let value := if ctx.isNullish then JSVal.undefV else ctx.getD ("value")
  pure (.recV [(("field"), .strV field), (("message"), detail.getD ("message")), (("value"), value)])

/-- One step of the Yup mapping in `transformValidationError`:
`{ field: err.path, message: err.message, value: err.value }`.
Throws when the element is nullish. -/
def mapYupItem (err : JSVal) : Except JsErr JSVal := do
  let p ← getProp err ("path")
  pure (.recV [(("field"), p), (("message"), err.getD ("message")), (("value"), err.getD ("value"))])

/-- The part of `transformValidationError` after the Joi branch: the Yup
branch (`error.errors && Array.isArray(error.errors)`) and the fallback
`new ValidationError(error.message)`. -/
def transformValidationErrorTail (error : JSVal) : Except JsErr JSVal :=
  match error.getD ("errors") with
  | .arrV l => do
    let mapped ← l.mapM mapYupItem
    pure (mkValidationError (.strV ("Validation failed")) (.arrV mapped))
  | _ => pure (mkValidationError (error.getD ("message")) .nullV)

/-- `transformValidationError` (src/utils/errors.js).  The Joi branch fires
when `error.details` is a (necessarily truthy) array; arrays are the only
truthy values passing `Array.isArray`.  Only called with a non-nullish
receiver. -/
def transformValidationError (error : JSVal) : Except JsErr JSVal :=
  match error.getD ("details") with
  | .arrV l => do
    let mapped ← l.mapM mapJoiDetail
    pure (mkValidationError (.strV ("Validation failed")) (.arrV mapped))
  | _ => transformValidationErrorTail error

/-- `transformClerkError` (src/utils/errors.js): dispatch on `error.status`
with strict equality against 401 and 403. -/
def transformClerkError (error : JSVal) : JSVal :=
  let status := error.getD ("status")
  if isNumEq status 401 then mkAuthenticationError (error.getD ("message"))
  else if isNumEq status 403 then mkAuthorizationError (error.getD ("message"))
  else mkAPIError (error.getD ("message")) (if status.truthy then status else .numV 500) .nullV .nullV

/-- `transformCloudinaryError` (src/utils/errors.js): dispatch on
`error.http_code`. -/
def transformCloudinaryError (error : JSVal) : JSVal :=
  let hc := error.getD ("http_code")
  if isNumEq hc 400 then
    mkValidationError (.strV ("File upload failed: " ++ (error.getD ("message")).toStr)) .nullV
  else if isNumEq hc 401 then
    mkExternalServiceError ("Cloudinary") (.strV ("Authentication failed"))
  else if isNumEq hc 413 then
    mkValidationError (.strV ("File size too large")) .nullV
  else
    mkExternalServiceError ("Cloudinary") (error.getD ("message"))

/-- The tail of `transformError`'s dispatch chain, after the `APIError`
passthrough and the Prisma test: Clerk, Cloudinary, validation libraries,
Mongo, then the generic fallback
`new APIError(error.message || 'An unexpected error occurred', 500, 'INTERNAL_ERROR')`. -/
def transformErrorRest (error : JSVal) : Except JsErr JSVal :=
  if (error.getD ("clerkError")).truthy || ((error.getD ("status")).truthy && (error.getD ("message")).truthy) then
    .ok (transformClerkError error)
  else if (error.getD ("http_code")).truthy then
    .ok (transformCloudinaryError error)
  else if (error.getD ("isJoi")).truthy || isStrEq (error.getD ("name")) ("ValidationError") then
    transformValidationError error
  else if isStrEq (error.getD ("name")) ("MongoError") || isStrEq (error.getD ("name")) ("MongooseError") then
    .ok (mkDatabaseError (.strV ("Database operation failed")) error)
  else
    .ok (mkAPIError
      (if (error.getD ("message")).truthy then error.getD ("message") else .strV ("An unexpected error occurred"))
      (.numV 500) (.strV ("INTERNAL_ERROR")) .nullV)

/-- `transformError` (src/utils/errors.js).  The first condition after the
`instanceof` test reads `error.code`, which throws a `TypeError` on a
`null`/`undefined` input; `error.code.startsWith('P')` likewise throws when
`error.code` is truthy but not a string. -/
def transformError (error : JSVal) : Except JsErr JSVal :=
  if isAPIError error then .ok error
  else if error.isNullish then .error .typeError
  else
    let code := error.getD ("code")
    if code.truthy then
      match code with
      | .strV s =>
        if strStartsWith s ("P") then .ok (transformPrismaError error)
        else transformErrorRest error
      | _ => .error .typeError
    else transformErrorRest error

/-! ### Response envelope builders (src/utils/responseUtils.js) and the
terminal error middleware (src/middleware/errorHandler.js). -/

/-- A call `res.status(statusCode).json(body)`: the HTTP status (a `JSVal`
because the middleware passes `err.statusCode` through unchanged) and the
object literal passed to `json`, as an ordered field list. -/
structure JsonOut : Type where
  status : JSVal
  body : List (String × JSVal)

/-- The value is exactly `undefined`. -/
def JSVal.isUndef : JSVal → Bool
  | .undefV => true
  | _ => false

/-- Key `k` survives JSON serialization of the body: it is present and its
value is not `undefined` (`JSON.stringify` drops `undefined`-valued keys but
keeps `null`-valued ones). -/
def rendersKey (o : JsonOut) (k : String) : Bool :=
  o.body.any (fun kv => kv.1 = k && !kv.2.isUndef)

/-- `success(res, data, message = 'Success', statusCode = 200)`. -/
def success (data : JSVal) (message : String) (statusCode : Int) (now : String) : JsonOut :=
  ⟨.numV statusCode,
   [(("success"), .boolV true), (("message"), .strV message), (("data"), data),
    (("timestamp"), .strV now)]⟩

/-- `created(res, data, message = 'Resource created successfully')`. -/
def createdResp (data : JSVal) (message : String) (now : String) : JsonOut :=
  success data message 201 now

/-- `noContent(res, message = 'Operation completed successfully')`:
status 204 with a body carrying neither `data` nor `error`. -/
def noContent (message : String) (now : String) : JsonOut :=
  ⟨.numV 204, [(("success"), .boolV true), (("message"), .strV message), (("timestamp"), .strV now)]⟩

/-- `Math.ceil(total / limit)` on the pagination inputs (exact rational
division; the claims only concern positive integer inputs, where the
double-precision division of the source is exact enough to agree). -/
def pagesOf (total limit : Int) : Int :=
  ⌈(total : ℚ) / (limit : ℚ)⌉

/-- `pagination.page < Math.ceil(total / limit)` from `paginated`. -/
def hasNextOf (page limit total : Int) : Bool :=
  decide (page < pagesOf total limit)

/-- `pagination.page > 1` from `paginated`. -/
def hasPrevOf (page : Int) : Bool :=
  decide (1 < page)

/-- The `pagination` object built inside `paginated`. -/
def paginationObj (page limit total : Int) : JSVal :=
  .recV [(("page"), .numV page), (("limit"), .numV limit), (("total"), .numV total),
         (("pages"), .numV (pagesOf total limit)),
         (("hasNext"), .boolV (hasNextOf page limit total)),
         (("hasPrev"), .boolV (hasPrevOf page))]

/-- `paginated(res, data, pagination, message = 'Success')`. -/
def paginated (data : JSVal) (page limit total : Int) (message : String) (now : String) : JsonOut :=
  ⟨.numV 200,
   [(("success"), .boolV true), (("message"), .strV message), (("data"), data),
    (("pagination"), paginationObj page limit total), (("timestamp"), .strV now)]⟩

/-- `error(res, message, statusCode = 500, code = null, details = null)`:
the error-envelope builder.  The `details` key is spread in only when
`details` is truthy. -/
def errorResp (message : String) (statusCode : Int) (code : JSVal) (details : JSVal) (now : String) : JsonOut :=
  ⟨.numV statusCode,
   [(("success"), .boolV false),
    (("error"), .recV ([(("message"), .strV message), (("code"), code), (("statusCode"), .numV statusCode)] ++
      (if details.truthy then [(("details"), details)] else []))),
    (("timestamp"), .strV now)]⟩

/-- `sendErrorDev(err, res)` (src/middleware/errorHandler.js): full detail,
status `err.statusCode`, and no top-level `timestamp` field. -/
def sendErrorDev (err : JSVal) : JsonOut :=
  ⟨err.getD ("statusCode"),
   [(("error"), .recV ([(("message"), err.getD ("message")), (("code"), err.getD ("code")),
      (("statusCode"), err.getD ("statusCode")), (("stack"), err.getD ("stack"))] ++
      (if (err.getD ("details")).truthy then [(("details"), err.getD ("details"))] else []) ++
      (if (err.getD ("originalError")).truthy then [(("originalError"), err.getD ("originalError"))] else [])))]⟩

/-- `sendErrorProd(err, res)` (src/middleware/errorHandler.js): operational
errors keep message/code/details; otherwise a generic 500 body.  Neither
branch emits a top-level `timestamp` field. -/
def sendErrorProd (err : JSVal) : JsonOut :=
  if (err.getD ("isOperational")).truthy then
    ⟨err.getD ("statusCode"),
     [(("error"), .recV ([(("message"), err.getD ("message")), (("code"), err.getD ("code"))] ++
        (if (err.getD ("details")).truthy then [(("details"), err.getD ("details"))] else [])))]⟩
  else
    ⟨.numV 500,
     [(("error"), .recV [(("message"), .strV ("Something went wrong!")), (("code"), .strV ("INTERNAL_ERROR"))])]⟩

/-! ### Reaction toggle (src/routes/reactions.js, POST /api/reactions). -/

/-- A row of the `posts` table, restricted to the columns the reaction
route selects (`id`, `deletedAt`, `expiresAt`; `expiresAt` is non-nullable
in the schema). -/
structure Post : Type where
  id : String
  deletedAt : Option Int
  expiresAt : Int
deriving DecidableEq

/-- A row of the `reactions` table; the schema's primary key is the triple
`(postId, userId, type)`. -/
structure Reaction : Type where
  postId : String
  userId : String
  type : String
deriving DecidableEq

/-- The valid reaction types of the route. -/
def validTypes : List String := ["LIKE", "LOL", "SAD", "LOVE", "ANGRY", "WOW"]

/-- The distinct exits of the `POST /api/reactions` handler. -/
inductive ToggleOutcome : Type where
  | missingFields
  | invalidType
  | postNotFound
  | postExpired
  | removed
  | createdNew
  | replaced
deriving DecidableEq

/-- The HTTP status each exit responds with: the required-field and
invalid-type checks and the expired-post check answer 400, a missing or
soft-deleted post answers 404, toggle-off answers 200, and both create
paths answer 201. -/
def ToggleOutcome.status : ToggleOutcome → Int
  | .missingFields => 400
  | .invalidType => 400
  | .postNotFound => 404
  | .postExpired => 400
  | .removed => 200
  | .createdNew => 201
  | .replaced => 201

/-- The reaction rows held by `(postId, userId)`. -/
def rowsFor (rs : List Reaction) (postId userId : String) : List Reaction :=
  rs.filter (fun r => r.postId = postId && r.userId = userId)

/-- The `POST /api/reactions` handler as a state transition on the posts
and reactions tables.  `now` is the clock read by `new Date()`.  Deletes
address the unique `(postId, userId, type)` key, creates append a row. -/
def toggleReaction (posts : List Post) (rs : List Reaction)
    (postId userId ty : String) (now : Int) : ToggleOutcome × List Reaction :=
  if postId.isEmpty || userId.isEmpty || ty.isEmpty then (.missingFields, rs)
  else if !(validTypes.contains ty) then (.invalidType, rs)
  else
    match posts.find? (fun p => p.id = postId) with
    | none => (.postNotFound, rs)
    | some post =>
      if post.deletedAt.isSome then (.postNotFound, rs)
      else if post.expiresAt < now then (.postExpired, rs)
      else
        match rs.find? (fun r => r.postId = postId && r.userId = userId) with
        | none => (.createdNew, rs ++ [⟨postId, userId, ty⟩])
        | some existing =>
          if existing.type = ty then
            (.removed, rs.filter (fun r => !(r.postId = postId && r.userId = userId && r.type = ty)))
          else
            (.replaced,
             (rs.filter (fun r =>
                !(r.postId = existing.postId && r.userId = existing.userId && r.type = existing.type)))
               ++ [⟨postId, userId, ty⟩])

/-! ### Follow / unfollow (src/routes/follows.js). -/

/-- A row of the `followers` table; primary key `(followerId, followeeId)`. -/
structure Follow : Type where
  followerId : String
  followeeId : String
deriving DecidableEq

/-- The distinct exits of the `POST /api/follows` handler. -/
inductive FollowOutcome : Type where
  | missingFields
  | selfFollow
  | followerNotFound
  | followeeNotFound
  | alreadyFollowing
  | followCreated
deriving DecidableEq

/-- The HTTP status of each `POST /api/follows` exit. -/
def FollowOutcome.status : FollowOutcome → Int
  | .missingFields => 400
  | .selfFollow => 400
  | .followerNotFound => 404
  | .followeeNotFound => 404
  | .alreadyFollowing => 409
  | .followCreated => 201

/-- The `POST /api/follows` handler: `users` is the set of existing user
ids, `fs` the follow table. -/
def followCreate (users : List String) (fs : List Follow)
    (followerId followeeId : String) : FollowOutcome × List Follow :=
  if followerId.isEmpty || followeeId.isEmpty then (.missingFields, fs)
  else if followerId = followeeId then (.selfFollow, fs)
  else if !(users.contains followerId) then (.followerNotFound, fs)
  else if !(users.contains followeeId) then (.followeeNotFound, fs)
  else if fs.any (fun f => f.followerId = followerId && f.followeeId = followeeId) then
    (.alreadyFollowing, fs)
  else (.followCreated, fs ++ [⟨followerId, followeeId⟩])

/-- The distinct exits of the `DELETE /api/follows` handler. -/
inductive UnfollowOutcome : Type where
  | missingFields
  | notFollowing
  | unfollowed
deriving DecidableEq

/-- The HTTP status of each `DELETE /api/follows` exit: the Prisma delete
on an absent `(followerId, followeeId)` key raises P2025, which the handler
catches and answers with 404. -/
def UnfollowOutcome.status : UnfollowOutcome → Int
  | .missingFields => 400
  | .notFollowing => 404
  | .unfollowed => 204

/-- The `DELETE /api/follows` handler. -/
def followDelete (fs : List Follow) (followerId followeeId : String) :
    UnfollowOutcome × List Follow :=
  if followerId.isEmpty || followeeId.isEmpty then (.missingFields, fs)
  else if !(fs.any (fun f => f.followerId = followerId && f.followeeId = followeeId)) then
    (.notFollowing, fs)
  else
    (.unfollowed, fs.filter (fun f => !(f.followerId = followerId && f.followeeId = followeeId)))

/-! ### Message read receipts (src/routes/messages.js). -/

/-- A row of the `messages` table, restricted to the columns these handlers
touch; `deliveredAt` and `readAt` are nullable timestamps. -/
structure Message : Type where
  id : String
  chatId : String
  senderId : String
  deliveredAt : Option Int
  readAt : Option Int
deriving DecidableEq

/-- The distinct exits of the `PUT /api/messages/:id/read` handler. -/
inductive MarkReadOutcome : Type where
  | missingUser
  | msgNotFound
  | accessDenied
  | noop
  | marked
deriving DecidableEq

/-- The HTTP status of each `PUT /api/messages/:id/read` exit (the no-op
and the update both answer 200). -/
def MarkReadOutcome.status : MarkReadOutcome → Int
  | .missingUser => 400
  | .msgNotFound => 404
  | .accessDenied => 403
  | .noop => 200
  | .marked => 200

/-- The update applied by `prisma.message.update` in the read handler:
`readAt = now`, and `deliveredAt = now` only when it was still null. -/
def markReadUpdate (now : Int) (m : Message) : Message :=
  ⟨m.id, m.chatId, m.senderId, (if m.deliveredAt.isSome then m.deliveredAt else some now), some now⟩

/-- The `PUT /api/messages/:id/read` handler: `members` is the
`(memberId, chatId)` membership table. -/
def markRead (msgs : List Message) (members : List (String × String))
    (id userId : String) (now : Int) : MarkReadOutcome × List Message :=
  if userId.isEmpty then (.missingUser, msgs)
  else
    match msgs.find? (fun m => m.id = id) with
    | none => (.msgNotFound, msgs)
    | some m =>
      if !(members.contains (userId, m.chatId)) then (.accessDenied, msgs)
      else if m.readAt.isSome || m.senderId = userId then (.noop, msgs)
      else
        (.marked, msgs.map (fun x => if x.id = id then markReadUpdate now x else x))

/-- The distinct exits of the `PUT /api/messages/chat/:chatId/read-all`
handler. -/
inductive MarkAllOutcome : Type where
  | missingUser
  | accessDenied
  | completed
deriving DecidableEq

/-- The `updateMany` filter of the read-all handler: same chat, not sent by
the acting user, not yet read. -/
def markAllMatch (chatId userId : String) (m : Message) : Bool :=
  m.chatId = chatId && m.senderId ≠ userId && m.readAt = none

/-- The update applied by `updateMany` in the read-all handler: it sets
`readAt = now` and `deliveredAt = now` unconditionally on every matched row
(overwriting any `deliveredAt` already present). -/
def markAllUpdate (now : Int) (m : Message) : Message :=
  ⟨m.id, m.chatId, m.senderId, some now, some now⟩

/-- The `PUT /api/messages/chat/:chatId/read-all` handler; the third
component is the `updatedCount` returned to the caller (`result.count` of
`updateMany`, the number of matched rows). -/
def markAllRead (msgs : List Message) (members : List (String × String))
    (chatId userId : String) (now : Int) : MarkAllOutcome × List Message × Nat :=
  if userId.isEmpty then (.missingUser, msgs, 0)
  else if !(members.contains (userId, chatId)) then (.accessDenied, msgs, 0)
  else
    (.completed,
     msgs.map (fun m => if markAllMatch chatId userId m then markAllUpdate now m else m),
     (msgs.filter (markAllMatch chatId userId)).length)

/-! ### Shape predicates for the transformer dispatch. -/

/-- The value is an array (`Array.isArray`). -/
def JSVal.isArr : JSVal → Bool
  | .arrV _ => true
  | _ => false

/-- A Joi `details` element the mapping can process without throwing:
non-nullish with an array-valued `path`. -/
def goodJoiElem (d : JSVal) : Bool :=
  !d.isNullish && (d.getD ("path")).isArr

/-- The `details` field, if it is an array, has only processable elements. -/
def joiOk (e : JSVal) : Bool :=
  match e.getD ("details") with
  | .arrV l => l.all goodJoiElem
  | _ => true

/-- The `errors` field, if it is an array, has only non-nullish elements. -/
def yupOk (e : JSVal) : Bool :=
  match e.getD ("errors") with
  | .arrV l => l.all (fun d => !d.isNullish)
  | _ => true

/-- The `code` field does not route the input to the Prisma mapper and does
not make `error.code.startsWith('P')` throw: it is falsy, or a string not
starting with `P`. -/
def codeNotPrisma (e : JSVal) : Bool :=
  !(e.getD ("code")).truthy ||
  (match e.getD ("code") with
   | .strV s => !strStartsWith s ("P")
   | _ => false)

/-- Inputs on which `transformError` cannot throw: `APIError` instances,
and non-nullish values whose `code` field is falsy or a string and whose
`details`/`errors` arrays (if any) are made of processable elements. -/
def wellShaped (e : JSVal) : Bool :=
  isAPIError e ||
  (!e.isNullish &&
   (!(e.getD ("code")).truthy || (e.getD ("code")).isStr) &&
   joiOk e && yupOk e)

/-- Inputs matching none of the recognized shapes, so that `transformError`
reaches its generic fallback: not an `APIError`, not nullish, `code` falsy
or a non-Prisma string, no truthy `clerkError`, not (truthy `status` and
truthy `message`), no truthy `http_code`, no truthy `isJoi`, and a `name`
that is none of `ValidationError`, `MongoError`, `MongooseError`. -/
def notRecognized (e : JSVal) : Bool :=
  !isAPIError e && !e.isNullish && codeNotPrisma e &&
  !(e.getD ("clerkError")).truthy &&
  !((e.getD ("status")).truthy && (e.getD ("message")).truthy) &&
  !(e.getD ("http_code")).truthy &&
  !(e.getD ("isJoi")).truthy &&
  !isStrEq (e.getD ("name")) ("ValidationError") &&
  !isStrEq (e.getD ("name")) ("MongoError") &&
  !isStrEq (e.getD ("name")) ("MongooseError")

/-! ### Helper lemmas about the transformer. -/

theorem getProp_eq_ok (v : JSVal) (k : String) (h : v.isNullish = false) :
    getProp v k = .ok (v.getD k) := by
  cases v <;> simp_all [getProp, JSVal.isNullish]

theorem isArr_exists {v : JSVal} (h : v.isArr = true) : ∃ l, v = .arrV l := by
  cases v <;> simp_all [JSVal.isArr]

theorem errMsg_of_truthy {v : JSVal} (h : v.truthy = true) : errMsg v = v.toStr := by
  cases v <;> simp_all [errMsg, JSVal.truthy]

theorem argOrDefault_of_truthy {v : JSVal} (d : JSVal) (h : v.truthy = true) :
    argOrDefault v d = v := by
  cases v <;> simp_all [argOrDefault, JSVal.truthy]

theorem mapJoiDetail_ok {d : JSVal} (h : goodJoiElem d = true) :
    ∃ v, mapJoiDetail d = .ok v := by
  unfold goodJoiElem at h
  rw [Bool.and_eq_true] at h
  obtain ⟨h1, h2⟩ := h
  rw [Bool.not_eq_true'] at h1
  obtain ⟨l, hl⟩ := isArr_exists h2
  simp only [mapJoiDetail, getProp_eq_ok d _ h1, hl, joinCall, Bind.bind, Except.bind]
  exact ⟨_, rfl⟩

theorem mapYupItem_ok {d : JSVal} (h : d.isNullish = false) :
    ∃ v, mapYupItem d = .ok v := by
  simp only [mapYupItem, getProp_eq_ok d _ h, Bind.bind, Except.bind]
  exact ⟨_, rfl⟩

theorem mapM_joi_ok {l : List JSVal} (h : l.all goodJoiElem = true) :
    ∃ vs, l.mapM mapJoiDetail = .ok vs := by
  induction l with
  | nil => exact ⟨[], rfl⟩
  | cons d rest ih =>
    rw [List.all_cons, Bool.and_eq_true] at h
    obtain ⟨hd, hrest⟩ := h
    obtain ⟨v, hv⟩ := mapJoiDetail_ok hd
    obtain ⟨vs, hvs⟩ := ih hrest
    refine ⟨v :: vs, ?_⟩
    rw [List.mapM_cons, hv, hvs]
    rfl

theorem mapM_yup_ok {l : List JSVal} (h : l.all (fun d => !d.isNullish) = true) :
    ∃ vs, l.mapM mapYupItem = .ok vs := by
  induction l with
  | nil => exact ⟨[], rfl⟩
  | cons d rest ih =>
    rw [List.all_cons, Bool.and_eq_true] at h
    obtain ⟨hd, hrest⟩ := h
    rw [Bool.not_eq_true'] at hd
    obtain ⟨v, hv⟩ := mapYupItem_ok hd
    obtain ⟨vs, hvs⟩ := ih hrest
    refine ⟨v :: vs, ?_⟩
    rw [List.mapM_cons, hv, hvs]
    rfl

theorem transformValidationErrorTail_ok {e : JSVal} (hy : yupOk e = true) :
    ∃ v, transformValidationErrorTail e = .ok v ∧ isAPIError v = true := by
  unfold yupOk at hy
  unfold transformValidationErrorTail
  cases herr : e.getD ("errors") with
  | arrV l =>
    rw [herr] at hy
    obtain ⟨vs, hvs⟩ := mapM_yup_ok hy
    refine ⟨mkValidationError (.strV ("Validation failed")) (.arrV vs), ?_, rfl⟩
    simp only [Bind.bind, Except.bind, hvs]
    rfl
  | nullV => exact ⟨mkValidationError (e.getD ("message")) .nullV, rfl, rfl⟩
  | undefV => exact ⟨mkValidationError (e.getD ("message")) .nullV, rfl, rfl⟩
  | boolV b => exact ⟨mkValidationError (e.getD ("message")) .nullV, rfl, rfl⟩
  | numV n => exact ⟨mkValidationError (e.getD ("message")) .nullV, rfl, rfl⟩
  | strV s => exact ⟨mkValidationError (e.getD ("message")) .nullV, rfl, rfl⟩
  | recV fs => exact ⟨mkValidationError (e.getD ("message")) .nullV, rfl, rfl⟩
  | apiErrV n m st c d op ex => exact ⟨mkValidationError (e.getD ("message")) .nullV, rfl, rfl⟩

theorem transformValidationError_ok {e : JSVal} (hj : joiOk e = true) (hy : yupOk e = true) :
    ∃ v, transformValidationError e = .ok v ∧ isAPIError v = true := by
  unfold joiOk at hj
  unfold transformValidationError
  cases hdet : e.getD ("details") with
  | arrV l =>
    rw [hdet] at hj
    obtain ⟨vs, hvs⟩ := mapM_joi_ok hj
    refine ⟨mkValidationError (.strV ("Validation failed")) (.arrV vs), ?_, rfl⟩
    simp only [Bind.bind, Except.bind, hvs]
    rfl
  | nullV => exact transformValidationErrorTail_ok hy
  | undefV => exact transformValidationErrorTail_ok hy
  | boolV b => exact transformValidationErrorTail_ok hy
  | numV n => exact transformValidationErrorTail_ok hy
  | strV s => exact transformValidationErrorTail_ok hy
  | recV fs => exact transformValidationErrorTail_ok hy
  | apiErrV n m st c d op ex => exact transformValidationErrorTail_ok hy

theorem transformPrismaError_isAPIError (e : JSVal) :
    isAPIError (transformPrismaError e) = true := by
  simp only [transformPrismaError]
  split_ifs <;> rfl

theorem transformClerkError_isAPIError (e : JSVal) :
    isAPIError (transformClerkError e) = true := by
  simp only [transformClerkError]
  split_ifs <;> rfl

theorem transformCloudinaryError_isAPIError (e : JSVal) :
    isAPIError (transformCloudinaryError e) = true := by
  simp only [transformCloudinaryError]
  split_ifs <;> rfl

theorem transformErrorRest_ok {e : JSVal} (hj : joiOk e = true) (hy : yupOk e = true) :
    ∃ v, transformErrorRest e = .ok v ∧ isAPIError v = true := by
  unfold transformErrorRest
  split_ifs with h1 h2 h3 h4 h5
  · exact ⟨_, rfl, transformClerkError_isAPIError e⟩
  · exact ⟨_, rfl, transformCloudinaryError_isAPIError e⟩
  · exact transformValidationError_ok hj hy
  · exact ⟨mkDatabaseError (.strV ("Database operation failed")) e, rfl, rfl⟩
  · exact ⟨mkAPIError (e.getD ("message")) (.numV 500) (.strV ("INTERNAL_ERROR")) .nullV, rfl, rfl⟩
  · exact ⟨mkAPIError (.strV ("An unexpected error occurred")) (.numV 500) (.strV ("INTERNAL_ERROR")) .nullV, rfl, rfl⟩

theorem isStr_exists {v : JSVal} (h : v.isStr = true) : ∃ s, v = .strV s := by
  cases v <;> simp_all [JSVal.isStr]

/-- C1 (amended).  The claim as stated is false: `transformError` is not
total — it throws a `TypeError` on `null` and `undefined` inputs (the read
of `error.code`), and also on inputs whose truthy `code` field is not a
string or whose validation-library `details`/`errors` arrays hold malformed
elements.  On every `wellShaped` input — every `APIError` instance, and
every non-nullish value whose `code` field is falsy or a string and whose
`details`/`errors` arrays (if present) are made of processable elements —
it returns an `APIError` without throwing; the embedding is pure, so it
cannot mutate its input. -/
theorem transformError_total_of_wellShaped (e : JSVal) (h : wellShaped e = true) :
    ∃ v, transformError e = .ok v ∧ isAPIError v = true := by
  by_cases hA : isAPIError e = true
  · exact ⟨e, by simp [transformError, hA], hA⟩
  · unfold wellShaped at h
    rw [Bool.or_eq_true] at h
    rcases h with h | h
    · exact absurd h hA
    simp only [Bool.and_eq_true] at h
    obtain ⟨⟨⟨hn, hc⟩, hj⟩, hy⟩ := h
    rw [Bool.not_eq_true'] at hn
    rw [Bool.not_eq_true] at hA
    simp only [transformError, hA, hn, Bool.false_eq_true, if_false]
    by_cases hct : (e.getD ("code")).truthy = true
    · rw [Bool.or_eq_true] at hc
      rcases hc with hc | hc
      · rw [Bool.not_eq_true'] at hc
        rw [hct] at hc
        cases hc
      · obtain ⟨s, hs⟩ := isStr_exists hc
        rw [if_pos hct, hs]
        by_cases hsp : strStartsWith s ("P") = true
        · simp only [hsp, if_true]
          exact ⟨_, rfl, transformPrismaError_isAPIError e⟩
        · simp only [Bool.not_eq_true] at hsp
          simp only [hsp, Bool.false_eq_true, if_false]
          exact transformErrorRest_ok hj hy
    · rw [if_neg hct]
      exact transformErrorRest_ok hj hy

/-- C1 counterexample: on the input `null` — which the claim explicitly
includes — `transformError` throws a `TypeError` (the read of `error.code`
on a null receiver) instead of returning a taxonomy error. -/
theorem transformError_throws_on_null :
    transformError JSVal.nullV = .error .typeError := rfl

/-- Witness for `transformError_total_of_wellShaped` at the empty plain
object. -/
theorem transformError_total_witness :
    wellShaped (JSVal.recV []) = true ∧
    ∃ v, transformError (JSVal.recV []) = .ok v ∧ isAPIError v = true :=
  ⟨rfl, transformError_total_of_wellShaped (JSVal.recV []) rfl⟩

/-- C2 (amended).  For an input matching no recognized shape the source
returns `new APIError(error.message || 'An unexpected error occurred', 500,
'INTERNAL_ERROR')`: status 500 and code INTERNAL_ERROR as claimed, but —
contrary to the claim — the caller-facing message is the original message
whenever it is truthy (the generic message is used only when the original
message is falsy), and `isOperational` is `true`, because the `APIError`
constructor marks every error operational and the fallback does not
override it. -/
theorem transformError_fallback (e : JSVal) (h : notRecognized e = true) :
    transformError e = .ok (.apiErrV ("APIError")
      (if (e.getD ("message")).truthy then (e.getD ("message")).toStr
       else "An unexpected error occurred")
      (.numV 500) (.strV ("INTERNAL_ERROR")) .nullV true []) := by
  unfold notRecognized at h
  simp only [Bool.and_eq_true] at h
  obtain ⟨⟨⟨⟨⟨⟨⟨⟨⟨hA, hn⟩, hcp⟩, hclerk⟩, hsm⟩, hhttp⟩, hjoi⟩, hnv⟩, hnm1⟩, hnm2⟩ := h
  rw [Bool.not_eq_true'] at hA hn hclerk hsm hhttp hjoi hnv hnm1 hnm2
  have hrest : transformErrorRest e = .ok (mkAPIError
      (if (e.getD ("message")).truthy then e.getD ("message")
       else .strV ("An unexpected error occurred"))
      (.numV 500) (.strV ("INTERNAL_ERROR")) .nullV) := by
    unfold transformErrorRest
    rw [hclerk, hsm, hhttp, hjoi, hnv, hnm1, hnm2]
    simp
  have hval : mkAPIError
      (if (e.getD ("message")).truthy then e.getD ("message")
       else .strV ("An unexpected error occurred"))
      (.numV 500) (.strV ("INTERNAL_ERROR")) .nullV =
      .apiErrV ("APIError")
        (if (e.getD ("message")).truthy then (e.getD ("message")).toStr
         else "An unexpected error occurred")
        (.numV 500) (.strV ("INTERNAL_ERROR")) .nullV true [] := by
    by_cases hm : (e.getD ("message")).truthy = true
    · simp [mkAPIError, hm, errMsg_of_truthy hm]
    · simp only [Bool.not_eq_true] at hm
      rw [if_neg (by rw [hm]; exact Bool.false_ne_true),
          if_neg (by rw [hm]; exact Bool.false_ne_true)]
      rfl
  rw [← hval, ← hrest]
  simp only [transformError, hA, hn, Bool.false_eq_true, if_false]
  unfold codeNotPrisma at hcp
  rw [Bool.or_eq_true] at hcp
  by_cases hct : (e.getD ("code")).truthy = true
  · rcases hcp with hcp | hcp
    · rw [Bool.not_eq_true'] at hcp
      rw [hct] at hcp
      cases hcp
    · rw [if_pos hct]
      cases hcd : e.getD ("code") with
      | strV s =>
        rw [hcd] at hcp
        rw [Bool.not_eq_true'] at hcp
        simp only [hcp, Bool.false_eq_true, if_false]
      | nullV => rw [hcd] at hcp; cases hcp
      | undefV => rw [hcd] at hcp; cases hcp
      | boolV b => rw [hcd] at hcp; cases hcp
      | numV n => rw [hcd] at hcp; cases hcp
      | arrV l => rw [hcd] at hcp; cases hcp
      | recV fs => rw [hcd] at hcp; cases hcp
      | apiErrV n m st c d op ex => rw [hcd] at hcp; cases hcp
  · rw [if_neg hct]

/-- C2 counterexample: the unrecognized input `{ message: 'boom' }` is
mapped to an `APIError` whose caller-facing message is the original
`'boom'` — not the generic `'An unexpected error occurred'` the claim
requires — and whose `isOperational` flag is `true`, not `false`. -/
theorem transformError_fallback_counterexample :
    transformError (.recV [(("message"), .strV ("boom"))]) =
      .ok (.apiErrV ("APIError") ("boom") (.numV 500) (.strV ("INTERNAL_ERROR")) .nullV true []) ∧
    "boom" ≠ "An unexpected error occurred" := by
  refine ⟨rfl, ?_⟩
  decide

/-- Witness for `transformError_fallback` at `{ code: 'E11000' }` (a truthy
non-Prisma string code, nothing else set). -/
theorem transformError_fallback_witness :
    notRecognized (.recV [(("code"), .strV ("E11000"))]) = true ∧
    transformError (.recV [(("code"), .strV ("E11000"))]) =
      .ok (.apiErrV ("APIError") ("An unexpected error occurred")
        (.numV 500) (.strV ("INTERNAL_ERROR")) .nullV true []) := by
  have h := transformError_fallback (.recV [(("code"), .strV ("E11000"))]) (by decide)
  exact ⟨by decide, h⟩

/-- C10 (confirmed).  A non-`APIError`, non-nullish input whose `code`
field does not route to the Prisma mapper, with truthy `status` and truthy
`message`, is routed to `transformClerkError` — before the Cloudinary,
validation-library and Mongo rules are even consulted — and there
status 401 yields an AuthenticationError, status 403 an
AuthorizationError, and any other status a plain `APIError` carrying that
status unchanged. -/
theorem transformError_clerk_precedence (e : JSVal)
    (hA : isAPIError e = false) (hn : e.isNullish = false)
    (hcp : codeNotPrisma e = true)
    (hst : (e.getD ("status")).truthy = true)
    (hmsg : (e.getD ("message")).truthy = true) :
    transformError e = .ok (transformClerkError e) ∧
    (isNumEq (e.getD ("status")) 401 = true →
      transformClerkError e = .apiErrV ("AuthenticationError") ((e.getD ("message")).toStr)
        (.numV 401) (.strV ("AUTHENTICATION_ERROR")) .nullV true []) ∧
    (isNumEq (e.getD ("status")) 403 = true →
      transformClerkError e = .apiErrV ("AuthorizationError") ((e.getD ("message")).toStr)
        (.numV 403) (.strV ("AUTHORIZATION_ERROR")) .nullV true []) ∧
    (isNumEq (e.getD ("status")) 401 = false → isNumEq (e.getD ("status")) 403 = false →
      transformClerkError e = .apiErrV ("APIError") ((e.getD ("message")).toStr)
        (e.getD ("status")) .nullV .nullV true []) := by
  have hclerk : transformErrorRest e = .ok (transformClerkError e) := by
    unfold transformErrorRest
    rw [hst, hmsg]
    simp
  refine ⟨?_, ?_, ?_, ?_⟩
  · rw [← hclerk]
    simp only [transformError, hA, hn, Bool.false_eq_true, if_false]
    unfold codeNotPrisma at hcp
    rw [Bool.or_eq_true] at hcp
    by_cases hct : (e.getD ("code")).truthy = true
    · rcases hcp with hcp | hcp
      · rw [Bool.not_eq_true'] at hcp
        rw [hct] at hcp
        cases hcp
      · rw [if_pos hct]
        cases hcd : e.getD ("code") with
        | strV s =>
          rw [hcd] at hcp
          rw [Bool.not_eq_true'] at hcp
          simp only [hcp, Bool.false_eq_true, if_false]
        | nullV => rw [hcd] at hcp; cases hcp
        | undefV => rw [hcd] at hcp; cases hcp
        | boolV b => rw [hcd] at hcp; cases hcp
        | numV n => rw [hcd] at hcp; cases hcp
        | arrV l => rw [hcd] at hcp; cases hcp
        | recV fs => rw [hcd] at hcp; cases hcp
        | apiErrV n m st c d op ex => rw [hcd] at hcp; cases hcp
    · rw [if_neg hct]
  · intro h401
    unfold transformClerkError
    rw [if_pos h401]
    unfold mkAuthenticationError
    rw [argOrDefault_of_truthy _ hmsg, errMsg_of_truthy hmsg]
  · intro h403
    have h401 : isNumEq (e.getD ("status")) 401 = false := by
      cases hs : e.getD ("status") <;> simp_all [isNumEq]
    unfold transformClerkError
    rw [if_neg (by rw [h401]; exact Bool.false_ne_true), if_pos h403]
    unfold mkAuthorizationError
    rw [argOrDefault_of_truthy _ hmsg, errMsg_of_truthy hmsg]
  · intro h401 h403
    unfold transformClerkError
    rw [if_neg (by rw [h401]; exact Bool.false_ne_true),
        if_neg (by rw [h403]; exact Bool.false_ne_true), if_pos hst]
    unfold mkAPIError
    rw [errMsg_of_truthy hmsg]

/-- Witness for `transformError_clerk_precedence` at
`{ status: 418, message: 'teapot', isJoi: true }`: validation-shaped but
still routed through the Clerk mapper, emerging as a plain `APIError` with
status 418. -/
theorem transformError_clerk_precedence_witness :
    isAPIError (.recV [(("status"), .numV 418), (("message"), .strV ("teapot")), (("isJoi"), .boolV true)]) = false ∧
    transformError (.recV [(("status"), .numV 418), (("message"), .strV ("teapot")), (("isJoi"), .boolV true)]) =
      .ok (transformClerkError (.recV [(("status"), .numV 418), (("message"), .strV ("teapot")), (("isJoi"), .boolV true)])) ∧
    transformClerkError (.recV [(("status"), .numV 418), (("message"), .strV ("teapot")), (("isJoi"), .boolV true)]) =
      .apiErrV ("APIError") ("teapot") (.numV 418) .nullV .nullV true [] := by
  have h := transformError_clerk_precedence
    (.recV [(("status"), .numV 418), (("message"), .strV ("teapot")), (("isJoi"), .boolV true)])
    (by decide) (by decide) (by decide) (by decide) (by decide)
  exact ⟨by decide, h.1, h.2.2.2 (by decide) (by decide)⟩

/-- Exactly one of the `data` and `error` keys survives serialization. -/
def envelopeExclusive (o : JsonOut) : Bool :=
  rendersKey o ("data") != rendersKey o ("error")

/-- The invariant claimed for rendered responses: `data`/`error`
exclusivity together with a rendered `timestamp` key. -/
def envelopeOk (o : JsonOut) : Bool :=
  envelopeExclusive o && rendersKey o ("timestamp")

/-- C3 (amended).  The claimed invariant holds for the data- and
error-carrying builders (`success`, `created`, `paginated` — given actual
data, since an `undefined` data argument would be dropped by serialization
— and `error`), but not universally: the no-content (204) builder renders
neither `data` nor `error` (only `success`, `message`, `timestamp`), and
the terminal error middleware's development and production responses carry
an `error` key and no `data` key but no top-level `timestamp` at all. -/
theorem envelope_invariant :
    (∀ (data : JSVal) (message : String) (statusCode : Int) (now : String),
       data.isUndef = false → envelopeOk (success data message statusCode now) = true) ∧
    (∀ (data : JSVal) (message now : String),
       data.isUndef = false → envelopeOk (createdResp data message now) = true) ∧
    (∀ (data : JSVal) (page limit total : Int) (message now : String),
       data.isUndef = false → envelopeOk (paginated data page limit total message now) = true) ∧
    (∀ (message : String) (statusCode : Int) (code details : JSVal) (now : String),
       envelopeOk (errorResp message statusCode code details now) = true) ∧
    (∀ message now,
       rendersKey (noContent message now) ("data") = false ∧
       rendersKey (noContent message now) ("error") = false ∧
       rendersKey (noContent message now) ("timestamp") = true) ∧
    (∀ err,
       rendersKey (sendErrorDev err) ("error") = true ∧
       rendersKey (sendErrorDev err) ("data") = false ∧
       rendersKey (sendErrorDev err) ("timestamp") = false) ∧
    (∀ err,
       rendersKey (sendErrorProd err) ("error") = true ∧
       rendersKey (sendErrorProd err) ("data") = false ∧
       rendersKey (sendErrorProd err) ("timestamp") = false) := by
  refine ⟨?_, ?_, ?_, ?_, ?_, ?_, ?_⟩
  · intro data message statusCode now h
    cases data <;> simp_all [envelopeOk, envelopeExclusive, rendersKey, success, JSVal.isUndef]
  · intro data message now h
    cases data <;> simp_all [envelopeOk, envelopeExclusive, rendersKey, createdResp, success, JSVal.isUndef]
  · intro data page limit total message now h
    cases data <;> simp_all [envelopeOk, envelopeExclusive, rendersKey, paginated, paginationObj, JSVal.isUndef]
  · intro message statusCode code details now
    simp [envelopeOk, envelopeExclusive, rendersKey, errorResp, JSVal.isUndef]
  · intro message now
    refine ⟨?_, ?_, ?_⟩ <;> simp [rendersKey, noContent, JSVal.isUndef]
  · intro err
    refine ⟨?_, ?_, ?_⟩ <;> simp [rendersKey, sendErrorDev, JSVal.isUndef]
  · intro err
    unfold sendErrorProd
    split_ifs <;> refine ⟨?_, ?_, ?_⟩ <;> simp [rendersKey, JSVal.isUndef]

/-- C3 counterexample: the rendered body of the no-content builder carries
neither `data` nor `error` — refuting "exactly one … never neither" — and
the development error middleware response carries no `timestamp`. -/
theorem envelope_invariant_counterexample :
    rendersKey (noContent ("Operation completed successfully") ("2024-01-01T00:00:00.000Z")) ("data") = false ∧
    rendersKey (noContent ("Operation completed successfully") ("2024-01-01T00:00:00.000Z")) ("error") = false ∧
    rendersKey (sendErrorDev (mkAPIError (.strV ("boom")) (.numV 500) .nullV .nullV)) ("timestamp") = false := by
  refine ⟨?_, ?_, ?_⟩ <;> decide

/-- Witness for `envelope_invariant` at concrete arguments. -/
theorem envelope_invariant_witness :
    (JSVal.boolV true).isUndef = false ∧
    envelopeOk (success (.boolV true) ("Success") 200 ("t0")) = true ∧
    envelopeOk (errorResp ("Post not found") 404 (.strV ("NOT_FOUND_ERROR")) .nullV ("t0")) = true :=
  ⟨rfl,
   envelope_invariant.1 (.boolV true) ("Success") 200 ("t0") rfl,
   envelope_invariant.2.2.2.1 ("Post not found") 404 (.strV ("NOT_FOUND_ERROR")) .nullV ("t0")⟩

/-- C9 (confirmed).  `pages` is the ceiling of `total / limit` — the least
integer `n` with `total ≤ n * limit` — and `hasNext`/`hasPrev` are exactly
the comparisons `page < pages` and `page > 1`; at `total = 95, limit = 20`
the builder yields `pages = 5`, `hasNext = false` at page 5 and
`hasPrev = false` at page 1. -/
theorem pagination_math (page limit total : Int) (hl : 0 < limit) :
    total ≤ pagesOf total limit * limit ∧
    (∀ n : Int, total ≤ n * limit → pagesOf total limit ≤ n) ∧
    hasNextOf page limit total = decide (page < pagesOf total limit) ∧
    hasPrevOf page = decide (1 < page) ∧
    paginationObj page limit total = .recV [(("page"), .numV page), (("limit"), .numV limit),
      (("total"), .numV total), (("pages"), .numV (pagesOf total limit)),
      (("hasNext"), .boolV (hasNextOf page limit total)), (("hasPrev"), .boolV (hasPrevOf page))] ∧
    pagesOf 95 20 = 5 ∧ hasNextOf 5 20 95 = false ∧ hasNextOf 4 20 95 = true ∧
    hasPrevOf 1 = false ∧ hasPrevOf 2 = true := by
  have hl' : (0 : ℚ) < (limit : ℚ) := by exact_mod_cast hl
  have h95 : pagesOf 95 20 = 5 := by
    rw [pagesOf, Int.ceil_eq_iff]
    constructor <;> norm_num
  refine ⟨?_, ?_, rfl, rfl, rfl, h95, ?_, ?_, ?_, ?_⟩
  · have h := Int.le_ceil ((total : ℚ) / (limit : ℚ))
    rw [div_le_iff₀ hl'] at h
    rw [pagesOf]
    exact_mod_cast h
  · intro n hn
    rw [pagesOf]
    apply Int.ceil_le.mpr
    rw [div_le_iff₀ hl']
    exact_mod_cast hn
  · simp [hasNextOf, h95]
  · simp [hasNextOf, h95]
  · simp [hasPrevOf]
  · simp [hasPrevOf]

/-- Witness for `pagination_math` at `page 1, limit 20, total 95`. -/
theorem pagination_math_witness :
    (0 : Int) < 20 ∧ (95 : Int) ≤ pagesOf 95 20 * 20 :=
  ⟨by norm_num, (pagination_math 1 20 95 (by norm_num)).1⟩

/-- Every valid reaction type is a nonempty string, so the required-field
check cannot fire for a valid type. -/
theorem validTypes_ne_empty {t : String} (h : validTypes.contains t = true) :
    t.isEmpty = false := by
  have hmem : t ∈ validTypes := List.mem_of_elem_eq_true h
  simp only [validTypes, List.mem_cons, List.not_mem_nil, or_false] at hmem
  rcases hmem with rfl | rfl | rfl | rfl | rfl | rfl <;> rfl

/-- Stepping lemma: when the required fields are present, the type is
valid, and the target post is found, live and unexpired, the handler
reduces to its reaction branch. -/
theorem toggleReaction_found (posts : List Post) (rs : List Reaction)
    (postId userId ty : String) (now : Int) (post : Post)
    (h1 : postId.isEmpty = false) (h2 : userId.isEmpty = false)
    (h3 : validTypes.contains ty = true)
    (h4 : posts.find? (fun p => p.id = postId) = some post)
    (h5 : post.deletedAt = none) (h6 : ¬(post.expiresAt < now)) :
    toggleReaction posts rs postId userId ty now =
      (match rs.find? (fun r => r.postId = postId && r.userId = userId) with
       | none => (.createdNew, rs ++ [(⟨postId, userId, ty⟩ : Reaction)])
       | some existing =>
         if existing.type = ty then
           (.removed, rs.filter (fun r => !(r.postId = postId && r.userId = userId && r.type = ty)))
         else
           (.replaced, (rs.filter (fun r =>
              !(r.postId = existing.postId && r.userId = existing.userId && r.type = existing.type)))
              ++ [(⟨postId, userId, ty⟩ : Reaction)])) := by
  unfold toggleReaction
  rw [h1, h2, validTypes_ne_empty h3, h3, h4]
  simp [h5, h6]

/-- C4 (confirmed).  Starting from a state with no reaction for
`(postId, userId)` on a live, unexpired post: toggling with type `a`
creates exactly the row `(postId, userId, a)` (the 201-create branch);
toggling again with the same type deletes it, returning the reaction table
to exactly its original rows; toggling with a different type `b` instead
deletes the old row and creates `(postId, userId, b)` (the
delete-then-create branch).  The exact state equations show at most one —
in fact exactly one or zero — reaction row for the pair at every point. -/
theorem reaction_toggle_three_cycle
    (posts : List Post) (rs : List Reaction) (postId userId a b : String)
    (post : Post) (now : Int)
    (hpid : postId.isEmpty = false) (huid : userId.isEmpty = false)
    (ha : validTypes.contains a = true) (hb : validTypes.contains b = true) (hab : a ≠ b)
    (hfind : posts.find? (fun p => p.id = postId) = some post)
    (hdel : post.deletedAt = none) (hexp : ¬(post.expiresAt < now))
    (hnone : ∀ r ∈ rs, (r.postId = postId && r.userId = userId) = false) :
    ∃ s1, toggleReaction posts rs postId userId a now = (.createdNew, s1) ∧
      rowsFor s1 postId userId = [⟨postId, userId, a⟩] ∧
      toggleReaction posts s1 postId userId a now = (.removed, rs) ∧
      toggleReaction posts s1 postId userId b now = (.replaced, rs ++ [⟨postId, userId, b⟩]) ∧
      rowsFor rs postId userId = [] ∧
      rowsFor (rs ++ [⟨postId, userId, b⟩]) postId userId = [⟨postId, userId, b⟩] := by
  have hnone' : ∀ r ∈ rs, ¬((fun r : Reaction => r.postId = postId && r.userId = userId) r = true) := by
    intro r hr hcontra
    simp only [] at hcontra
    rw [hnone r hr] at hcontra
    exact Bool.false_ne_true hcontra
  have hfindnone : rs.find? (fun r => r.postId = postId && r.userId = userId) = none :=
    List.find?_eq_none.mpr hnone'
  have hfilnil : rowsFor rs postId userId = [] := by
    unfold rowsFor
    exact List.filter_eq_nil_iff.mpr hnone'
  -- the third component of a matched row: both filters erase nothing from rs
  have hkeep : ∀ (t : String), ∀ r ∈ rs,
      ((fun r : Reaction => !(r.postId = postId && r.userId = userId && r.type = t)) r) = true := by
    intro t r hr
    have hthis := hnone r hr
    simp only [Bool.and_eq_false_iff] at hthis
    simp only [Bool.not_eq_true', Bool.and_eq_false_iff]
    tauto
  refine ⟨rs ++ [⟨postId, userId, a⟩], ?_, ?_, ?_, ?_, hfilnil, ?_⟩
  · rw [toggleReaction_found posts rs postId userId a now post hpid huid ha hfind hdel hexp]
    rw [hfindnone]
  · unfold rowsFor
    rw [List.filter_append]
    unfold rowsFor at hfilnil
    rw [hfilnil]
    simp
  · rw [toggleReaction_found posts _ postId userId a now post hpid huid ha hfind hdel hexp]
    have hfind1 : List.find? (fun r : Reaction => r.postId = postId && r.userId = userId)
        (rs ++ [⟨postId, userId, a⟩]) = some ⟨postId, userId, a⟩ := by
      rw [List.find?_append, hfindnone]
      simp [List.find?]
    rw [hfind1]
    simp only [if_pos rfl]
    rw [List.filter_append]
    rw [List.filter_eq_self.mpr (hkeep a)]
    simp
  · rw [toggleReaction_found posts _ postId userId b now post hpid huid hb hfind hdel hexp]
    have hfind1 : List.find? (fun r : Reaction => r.postId = postId && r.userId = userId)
        (rs ++ [⟨postId, userId, a⟩]) = some ⟨postId, userId, a⟩ := by
      rw [List.find?_append, hfindnone]
      simp [List.find?]
    rw [hfind1]
    dsimp only
    rw [if_neg hab]
    rw [List.filter_append]
    rw [List.filter_eq_self.mpr (hkeep a)]
    simp [hab]
  · unfold rowsFor
    rw [List.filter_append]
    unfold rowsFor at hfilnil
    rw [hfilnil]
    simp

/-- Witness for `reaction_toggle_three_cycle` on a one-post state. -/
theorem reaction_toggle_three_cycle_witness :
    ("p1" : String).isEmpty = false ∧ ("LIKE" : String) ≠ ("LOVE" : String) ∧
    ∃ s1, toggleReaction [⟨("p1"), none, 100⟩] [] ("p1") ("u1") ("LIKE") 5 = (.createdNew, s1) ∧
      rowsFor s1 ("p1") ("u1") = [⟨("p1"), ("u1"), ("LIKE")⟩] ∧
      toggleReaction [⟨("p1"), none, 100⟩] s1 ("p1") ("u1") ("LIKE") 5 = (.removed, []) ∧
      toggleReaction [⟨("p1"), none, 100⟩] s1 ("p1") ("u1") ("LOVE") 5 =
        (.replaced, [] ++ [⟨("p1"), ("u1"), ("LOVE")⟩]) ∧
      rowsFor [] ("p1") ("u1") = [] ∧
      rowsFor ([] ++ [⟨("p1"), ("u1"), ("LOVE")⟩]) ("p1") ("u1") = [⟨("p1"), ("u1"), ("LOVE")⟩] := by
  refine ⟨rfl, by decide, ?_⟩
  exact reaction_toggle_three_cycle [⟨("p1"), none, 100⟩] [] ("p1") ("u1") ("LIKE") ("LOVE")
    ⟨("p1"), none, 100⟩ 5 rfl rfl (by decide) (by decide) (by decide) (by decide) rfl
    (by decide) (by intro r hr; cases hr)

/-- C5 (amended).  A missing or soft-deleted target post makes the toggle
fail with 404 and an unchanged reaction table, as claimed; but an expired
post makes it fail with **400** ("Cannot react to expired post"), not the
claimed 410 Gone — `ToggleOutcome.postExpired.status = 400`.  No reaction
row is created or removed in either case. -/
theorem reaction_preconditions (posts : List Post) (rs : List Reaction)
    (postId userId ty : String) (now : Int)
    (hpid : postId.isEmpty = false) (huid : userId.isEmpty = false)
    (hty : validTypes.contains ty = true) :
    (posts.find? (fun p => p.id = postId) = none →
       toggleReaction posts rs postId userId ty now = (.postNotFound, rs)) ∧
    (∀ post, posts.find? (fun p => p.id = postId) = some post → post.deletedAt.isSome = true →
       toggleReaction posts rs postId userId ty now = (.postNotFound, rs)) ∧
    (∀ post, posts.find? (fun p => p.id = postId) = some post → post.deletedAt = none →
       post.expiresAt < now →
       toggleReaction posts rs postId userId ty now = (.postExpired, rs)) ∧
    ToggleOutcome.postNotFound.status = 404 ∧
    ToggleOutcome.postExpired.status = 400 := by
  refine ⟨?_, ?_, ?_, rfl, rfl⟩
  · intro hnonefound
    unfold toggleReaction
    rw [hpid, huid, validTypes_ne_empty hty, hty, hnonefound]
    simp
  · intro post hfound hdeleted
    unfold toggleReaction
    rw [hpid, huid, validTypes_ne_empty hty, hty, hfound]
    simp [hdeleted]
  · intro post hfound hlive hexpired
    unfold toggleReaction
    rw [hpid, huid, validTypes_ne_empty hty, hty, hfound]
    simp [hlive, hexpired]

/-- C5 counterexample: reacting to an expired post answers status 400,
not the 410 the claim requires. -/
theorem reaction_expired_counterexample :
    toggleReaction [⟨("p1"), none, 0⟩] [] ("p1") ("u1") ("LIKE") 1 = (.postExpired, []) ∧
    ToggleOutcome.postExpired.status = 400 ∧ ((400 : Int) ≠ 410) := by
  refine ⟨by decide, rfl, by decide⟩

/-- Witness for `reaction_preconditions` at an empty post table. -/
theorem reaction_preconditions_witness :
    ("p1" : String).isEmpty = false ∧
    toggleReaction ([] : List Post) [] ("p1") ("u1") ("LIKE") 1 = (.postNotFound, []) ∧
    ToggleOutcome.postNotFound.status = 404 := by
  have h := reaction_preconditions ([] : List Post) [] ("p1") ("u1") ("LIKE") 1 rfl rfl (by decide)
  exact ⟨rfl, h.1 rfl, h.2.2.2.1⟩

/-- C6 (confirmed).  `follow(a,a)` answers 400 unconditionally, with the
follow table unchanged — whether or not user `a` exists, and even when `a`
is empty (the required-field check also answers 400); a duplicate follow
answers 409 Conflict; unfollow of an absent pair answers 404 (the Prisma
P2025 catch); otherwise follow appends exactly the `(followerId,
followeeId)` row and unfollow removes exactly that row. -/
theorem follow_asymmetry :
    (∀ (users : List String) (fs : List Follow) (a : String),
       (followCreate users fs a a).1.status = 400 ∧ (followCreate users fs a a).2 = fs) ∧
    (∀ (users : List String) (fs : List Follow) (a b : String),
       a.isEmpty = false → b.isEmpty = false → a ≠ b →
       users.contains a = true → users.contains b = true →
       fs.any (fun f => f.followerId = a && f.followeeId = b) = true →
       followCreate users fs a b = (.alreadyFollowing, fs) ∧
       FollowOutcome.alreadyFollowing.status = 409) ∧
    (∀ (fs : List Follow) (a b : String), a.isEmpty = false → b.isEmpty = false →
       fs.any (fun f => f.followerId = a && f.followeeId = b) = false →
       followDelete fs a b = (.notFollowing, fs) ∧
       UnfollowOutcome.notFollowing.status = 404) ∧
    (∀ (users : List String) (fs : List Follow) (a b : String),
       a.isEmpty = false → b.isEmpty = false → a ≠ b →
       users.contains a = true → users.contains b = true →
       fs.any (fun f => f.followerId = a && f.followeeId = b) = false →
       followCreate users fs a b = (.followCreated, fs ++ [⟨a, b⟩]) ∧
       FollowOutcome.followCreated.status = 201) ∧
    (∀ (fs : List Follow) (a b : String), a.isEmpty = false → b.isEmpty = false →
       fs.any (fun f => f.followerId = a && f.followeeId = b) = true →
       followDelete fs a b =
         (.unfollowed, fs.filter (fun f => !(f.followerId = a && f.followeeId = b))) ∧
       UnfollowOutcome.unfollowed.status = 204) := by
  refine ⟨?_, ?_, ?_, ?_, ?_⟩
  · intro users fs a
    cases he : a.isEmpty <;>
      simp [followCreate, he, FollowOutcome.status]
  · intro users fs a b ha hb hab hua hub hdup
    refine ⟨?_, rfl⟩
    unfold followCreate
    rw [ha, hb, hua, hub, hdup]
    simp [hab]
  · intro fs a b ha hb habs
    refine ⟨?_, rfl⟩
    unfold followDelete
    rw [ha, hb, habs]
    simp
  · intro users fs a b ha hb hab hua hub habs
    refine ⟨?_, rfl⟩
    unfold followCreate
    rw [ha, hb, hua, hub, habs]
    simp [hab]
  · intro fs a b ha hb hpres
    refine ⟨?_, rfl⟩
    unfold followDelete
    rw [ha, hb, hpres]
    simp

/-- Witness for `follow_asymmetry` at a two-user state. -/
theorem follow_asymmetry_witness :
    (followCreate ["u1", "u2"] [] ("u1") ("u1")).1.status = 400 ∧
    (followCreate ["u1", "u2"] [⟨("u1"), ("u2")⟩] ("u1") ("u2") =
       (.alreadyFollowing, [⟨("u1"), ("u2")⟩])) ∧
    (followDelete [] ("u1") ("u2") = (.notFollowing, [])) ∧
    (followCreate ["u1", "u2"] [] ("u1") ("u2") = (.followCreated, [] ++ [⟨("u1"), ("u2")⟩])) ∧
    (followDelete [⟨("u1"), ("u2")⟩] ("u1") ("u2") =
       (.unfollowed, [⟨("u1"), ("u2")⟩].filter
         (fun f => !(f.followerId = ("u1") && f.followeeId = ("u2"))))) :=
  ⟨(follow_asymmetry.1 ["u1", "u2"] [] ("u1")).1,
   (follow_asymmetry.2.1 ["u1", "u2"] [⟨("u1"), ("u2")⟩] ("u1") ("u2")
     rfl rfl (by decide) (by decide) (by decide) (by decide)).1,
   (follow_asymmetry.2.2.1 [] ("u1") ("u2") rfl rfl (by decide)).1,
   (follow_asymmetry.2.2.2.1 ["u1", "u2"] [] ("u1") ("u2")
     rfl rfl (by decide) (by decide) (by decide) (by decide)).1,
   (follow_asymmetry.2.2.2.2 [⟨("u1"), ("u2")⟩] ("u1") ("u2") rfl rfl (by decide)).1⟩

/-- C7 (confirmed).  A successful `markRead` by a non-sender chat member on
an unread message sets `readAt = now` and leaves `deliveredAt` non-null
with `deliveredAt ≤ now = readAt` — backfilled to the very same instant
when it was still null, kept at its original (earlier) value otherwise;
every other message is untouched.  When the message is already read or the
acting user is the sender, the handler is a no-op: the message table is
returned unchanged (so a null `readAt` stays null). -/
theorem markRead_read_implies_delivered :
    (∀ (msgs : List Message) (members : List (String × String)) (id userId : String)
       (now : Int) (m : Message),
       userId.isEmpty = false →
       msgs.find? (fun x => x.id = id) = some m →
       members.contains (userId, m.chatId) = true →
       m.readAt = none → m.senderId ≠ userId →
       (∀ d, m.deliveredAt = some d → d ≤ now) →
       markRead msgs members id userId now =
         (.marked, msgs.map (fun x => if x.id = id then markReadUpdate now x else x)) ∧
       (markReadUpdate now m).readAt = some now ∧
       (∃ d, (markReadUpdate now m).deliveredAt = some d ∧ d ≤ now) ∧
       (m.deliveredAt = none → (markReadUpdate now m).deliveredAt = some now) ∧
       (∀ d0, m.deliveredAt = some d0 → (markReadUpdate now m).deliveredAt = some d0) ∧
       (∀ x ∈ msgs, x.id ≠ id → (if x.id = id then markReadUpdate now x else x) = x)) ∧
    (∀ (msgs : List Message) (members : List (String × String)) (id userId : String)
       (now : Int) (m : Message),
       userId.isEmpty = false →
       msgs.find? (fun x => x.id = id) = some m →
       members.contains (userId, m.chatId) = true →
       (m.readAt ≠ none ∨ m.senderId = userId) →
       markRead msgs members id userId now = (.noop, msgs)) := by
  constructor
  · intro msgs members id userId now m hu hfind hmem hread hsender hdeliv
    have hmem' : (userId, m.chatId) ∈ members := List.mem_of_elem_eq_true hmem
    have heq : markRead msgs members id userId now =
        (.marked, msgs.map (fun x => if x.id = id then markReadUpdate now x else x)) := by
      unfold markRead
      simp [hu, hfind, hmem', hread, hsender]
    refine ⟨heq, rfl, ?_, ?_, ?_, ?_⟩
    · cases hdd : m.deliveredAt with
      | none => exact ⟨now, by simp [markReadUpdate, hdd], le_refl now⟩
      | some d0 => exact ⟨d0, by simp [markReadUpdate, hdd], hdeliv d0 hdd⟩
    · intro hdd
      simp [markReadUpdate, hdd]
    · intro d0 hdd
      simp [markReadUpdate, hdd]
    · intro x _ hx
      rw [if_neg hx]
  · intro msgs members id userId now m hu hfind hmem hstop
    have hmem' : (userId, m.chatId) ∈ members := List.mem_of_elem_eq_true hmem
    unfold markRead
    rcases hstop with hr | hs
    · have hsome : m.readAt.isSome = true := Option.ne_none_iff_isSome.mp hr
      simp [hu, hfind, hmem', hsome]
    · simp [hu, hfind, hmem', hs]

/-- Witness for `markRead_read_implies_delivered`: a delivered-but-unread
message read by the other chat member, and a sender no-op. -/
theorem markRead_witness :
    ("bob" : String).isEmpty = false ∧
    markRead [⟨("m1"), ("c1"), ("alice"), some 3, none⟩] [(("bob"), ("c1"))] ("m1") ("bob") 7 =
      (.marked, [⟨("m1"), ("c1"), ("alice"), some 3, none⟩].map
        (fun x => if x.id = ("m1") then markReadUpdate 7 x else x)) ∧
    (∃ d, (markReadUpdate 7 (⟨("m1"), ("c1"), ("alice"), some 3, none⟩ : Message)).deliveredAt =
       some d ∧ d ≤ 7) ∧
    markRead [⟨("m1"), ("c1"), ("alice"), some 3, none⟩] [(("alice"), ("c1"))] ("m1") ("alice") 7 =
      (.noop, [⟨("m1"), ("c1"), ("alice"), some 3, none⟩]) := by
  have h1 := markRead_read_implies_delivered.1
    [⟨("m1"), ("c1"), ("alice"), some 3, none⟩] [(("bob"), ("c1"))] ("m1") ("bob") 7
    ⟨("m1"), ("c1"), ("alice"), some 3, none⟩ rfl (by decide) (by decide) rfl (by decide)
    (by intro d hd; cases hd; decide)
  have h2 := markRead_read_implies_delivered.2
    [⟨("m1"), ("c1"), ("alice"), some 3, none⟩] [(("alice"), ("c1"))] ("m1") ("alice") 7
    ⟨("m1"), ("c1"), ("alice"), some 3, none⟩ rfl (by decide) (by decide) (Or.inr rfl)
  exact ⟨rfl, h1.1, h1.2.2.1, h2⟩

/-- C8 (amended).  `markAllRead` updates exactly the messages of the chat
that were not sent by the acting user and had `readAt` null, and returns
their number; unmatched messages are unchanged in every field.  But on
every matched message it sets **both** `readAt` and `deliveredAt` to `now`
unconditionally: a matched message whose `deliveredAt` was already set has
it overwritten with `now`, contrary to the claim that the original value
is kept. -/
theorem markAllRead_bulk (msgs : List Message) (members : List (String × String))
    (chatId userId : String) (now : Int)
    (hu : userId.isEmpty = false) (hmem : members.contains (userId, chatId) = true) :
    markAllRead msgs members chatId userId now =
      (.completed,
       msgs.map (fun m => if markAllMatch chatId userId m then markAllUpdate now m else m),
       (msgs.filter (markAllMatch chatId userId)).length) ∧
    (∀ m, markAllMatch chatId userId m = true →
       (markAllUpdate now m).readAt = some now ∧
       (markAllUpdate now m).deliveredAt = some now) ∧
    (∀ m, markAllMatch chatId userId m = false →
       (if markAllMatch chatId userId m then markAllUpdate now m else m) = m) ∧
    (∀ m, markAllMatch chatId userId m = true ↔
       (m.chatId = chatId ∧ m.senderId ≠ userId ∧ m.readAt = none)) := by
  refine ⟨?_, ?_, ?_, ?_⟩
  · unfold markAllRead
    rw [hu, hmem]
    simp
  · intro m _
    exact ⟨rfl, rfl⟩
  · intro m hm
    rw [if_neg (by rw [hm]; exact Bool.false_ne_true)]
  · intro m
    simp [markAllMatch]
    tauto

/-- C8 counterexample: a matched message with `deliveredAt = some 5` has
its `deliveredAt` overwritten to `now = 10` by the bulk update — the claim
says an already-set `deliveredAt` keeps its original value. -/
theorem markAllRead_overwrites_deliveredAt :
    (markAllRead [⟨("m1"), ("c1"), ("alice"), some 5, none⟩] [(("bob"), ("c1"))]
       ("c1") ("bob") 10).2.1 =
      [⟨("m1"), ("c1"), ("alice"), some 10, some 10⟩] ∧
    (some (10 : Int) ≠ some (5 : Int)) := by
  refine ⟨by decide, by decide⟩

/-- Witness for `markAllRead_bulk`. -/
theorem markAllRead_bulk_witness :
    ("bob" : String).isEmpty = false ∧
    markAllRead [⟨("m1"), ("c1"), ("alice"), none, none⟩] [(("bob"), ("c1"))] ("c1") ("bob") 10 =
      (.completed,
       [⟨("m1"), ("c1"), ("alice"), none, none⟩].map
         (fun m => if markAllMatch ("c1") ("bob") m then markAllUpdate 10 m else m),
       ([⟨("m1"), ("c1"), ("alice"), none, none⟩].filter (markAllMatch ("c1") ("bob"))).length) :=
  ⟨rfl,
   (markAllRead_bulk [⟨("m1"), ("c1"), ("alice"), none, none⟩] [(("bob"), ("c1"))]
     ("c1") ("bob") 10 rfl (by decide)).1⟩
